import Mathlib

/-
Verification development for the Oblivion secure disk erasure tool.

The definitions below are a shallow embedding of the Rust sources:
  src/core/mod.rs            (data model)
  src/core/advanced.rs       (AdvancedWipeEngine: retry loop, strategy
                              branches, multi-pass patterns, post-wipe
                              verification threshold)
  src/certificates/mod.rs    (basic v1 certificate issuance)
  src/certificates/enhanced.rs (enhanced v2 certificate issuance)
  src/certificates/verifier.rs (CertificateVerifier)
  src/crypto/mod.rs          (hashing and signing, modelled abstractly)

Machine integers (u64, u32) are modelled as Nat: none of the verified
code performs wrapping arithmetic.  f64 values that only flow into
certificate fields are modelled as Rat.  Effectful device primitives
(sector writes, TRIM, hardware erase) are placeholders in the source
that unconditionally return Ok; where a claim quantifies over their
possible outcomes (retry behaviour, sampled verification), the outcome
is an explicit input of the model, mirroring the call sites.
SHA-256 hashing and Ed25519 signing are modelled as abstract string
functions passed as parameters: the claims settled here depend only on
which byte sequences are fed to them.
-/

namespace Oblivion

/-- core/mod.rs: DeviceType. -/
inductive DeviceType where
  | HDD
  | SSD
  | NVMe
  | USB
  | Unknown
deriving DecidableEq

/-- core/mod.rs: HiddenAreaType. -/
inductive HiddenAreaType where
  | HPA
  | DCO
  | SSDReserved
  | VendorSpecific
deriving DecidableEq

/-- core/mod.rs: HiddenArea. -/
structure HiddenArea where
  area_type : HiddenAreaType
  start_lba : ℕ
  size : ℕ
  description : String
deriving DecidableEq

/-- core/mod.rs: StorageDevice.  The PathBuf is modelled as the string the
certificate code extracts from it via to_string_lossy. -/
structure StorageDevice where
  path : String
  name : String
  size : ℕ
  device_type : DeviceType
  model : Option String
  serial : Option String
  supports_secure_erase : Bool
  supports_trim : Bool
  hidden_areas : List HiddenArea
deriving DecidableEq

/-- core/mod.rs: EraseMode. -/
inductive EraseMode where
  | Quick
  | Full
  | Advanced
deriving DecidableEq

/-- core/mod.rs: WipeResult.  SystemTime values are modelled as seconds
since the Unix epoch, which is exactly what the certificate code extracts
from them. -/
structure WipeResult where
  device : StorageDevice
  mode : EraseMode
  start_time : ℕ
  end_time : ℕ
  duration_seconds : ℕ
  bytes_written : ℕ
  verification_passed : Bool
  errors : List String
deriving DecidableEq

/-- error.rs: SecureEraseError.  Payloads that are only Display-formatted
are modelled as the resulting strings. -/
inductive SecureEraseError where
  | Io (msg : String)
  | Serialization (msg : String)
  | Crypto (msg : String)
  | DeviceNotFound (msg : String)
  | PermissionDenied (msg : String)
  | UnsupportedPlatform
  | UnsupportedDeviceType (msg : String)
  | SecureEraseNotSupported
  | WipeFailed (msg : String)
  | VerificationFailed (msg : String)
  | CertificateGenerationFailed (msg : String)
  | CertificateVerificationFailed (msg : String)
  | InvalidEraseMode (msg : String)
  | HiddenAreaAccessFailed (msg : String)
deriving DecidableEq

/-- Debug rendering of DeviceType, as produced by the {:?} format used in
certificate generation. -/
def DeviceType.debugStr : DeviceType → String
  | .HDD => "HDD"
  | .SSD => "SSD"
  | .NVMe => "NVMe"
  | .USB => "USB"
  | .Unknown => "Unknown"

/-- Debug rendering of EraseMode, as produced by {:?}. -/
def EraseMode.debugStr : EraseMode → String
  | .Quick => "Quick"
  | .Full => "Full"
  | .Advanced => "Advanced"

/-- Debug rendering of HiddenAreaType, as produced by {:?}. -/
def HiddenAreaType.debugStr : HiddenAreaType → String
  | .HPA => "HPA"
  | .DCO => "DCO"
  | .SSDReserved => "SSDReserved"
  | .VendorSpecific => "VendorSpecific"

/-- The primitive device operations invoked by core/advanced.rs.  An
overwrite is identified by the byte filling its 1024-byte pattern buffer.
Every one of these primitives is implemented in the source as a placeholder
that unconditionally returns Ok, so the wipe strategy functions below
record the ordered trace of primitives performed and cannot fail. -/
inductive WipeAction where
  | overwrite (pattern : ℕ)
  | hardwareSecureErase
  | trim
  | nvmeFormat (secure : Bool)
  | nvmeCryptoErase
deriving DecidableEq

/-- core/advanced.rs multi_pass_wipe: the fixed pattern table
[0x00, 0xFF, 0xAA, 0x55]. -/
def wipePatterns : List ℕ := [0x00, 0xFF, 0xAA, 0x55]

/-- core/advanced.rs multi_pass_wipe: pass number `pass` (1-based) writes
patterns[(pass - 1) % patterns.len()], and a final all-zero overwrite
always follows the requested passes. -/
def multi_pass_wipe (passes : ℕ) : List WipeAction :=
  ((List.range passes).map
    (fun i => WipeAction.overwrite (wipePatterns.getD (i % wipePatterns.length) 0)))
    ++ [WipeAction.overwrite 0x00]

/-- core/advanced.rs wipe_hdd. -/
def wipe_hdd (device : StorageDevice) (mode : EraseMode) : List WipeAction :=
  match mode with
  | .Quick => [WipeAction.overwrite 0x00]
  | .Full => multi_pass_wipe 3
  | .Advanced =>
      if device.supports_secure_erase then
        [WipeAction.hardwareSecureErase]
      else
        multi_pass_wipe 7

/-- core/advanced.rs wipe_ssd. -/
def wipe_ssd (device : StorageDevice) (mode : EraseMode) : List WipeAction :=
  match mode with
  | .Quick =>
      if device.supports_trim then [WipeAction.trim] else [WipeAction.overwrite 0x00]
  | .Full =>
      (if device.supports_trim then [WipeAction.trim] else []) ++ [WipeAction.overwrite 0xFF]
  | .Advanced =>
      if device.supports_secure_erase then
        [WipeAction.hardwareSecureErase]
      else
        (if device.supports_trim then [WipeAction.trim] else []) ++ multi_pass_wipe 3

/-- core/advanced.rs wipe_nvme. -/
def wipe_nvme (_device : StorageDevice) (mode : EraseMode) : List WipeAction :=
  match mode with
  | .Quick => [WipeAction.nvmeFormat true]
  | .Full => [WipeAction.nvmeFormat true, WipeAction.overwrite 0xFF]
  | .Advanced => [WipeAction.nvmeCryptoErase]

/-- core/advanced.rs wipe_usb. -/
def wipe_usb (_device : StorageDevice) (mode : EraseMode) : List WipeAction :=
  match mode with
  | .Quick => [WipeAction.overwrite 0x00]
  | .Full => multi_pass_wipe 3
  | .Advanced => multi_pass_wipe 7

/-- core/advanced.rs wipe_generic. -/
def wipe_generic (_device : StorageDevice) (mode : EraseMode) : List WipeAction :=
  match mode with
  | .Quick => [WipeAction.overwrite 0x00]
  | .Full => multi_pass_wipe 3
  | .Advanced => multi_pass_wipe 5

/-- core/advanced.rs perform_wipe_operation: dispatch on device type. -/
def perform_wipe_operation (device : StorageDevice) (mode : EraseMode) : List WipeAction :=
  match device.device_type with
  | .HDD => wipe_hdd device mode
  | .SSD => wipe_ssd device mode
  | .NVMe => wipe_nvme device mode
  | .USB => wipe_usb device mode
  | .Unknown => wipe_generic device mode

/-- core/advanced.rs verify_device_wipe, last two lines: the pass/fail
decision `verification_ratio >= 0.95` over `verified as f64 / sample_count
as f64`.  The comparison is modelled over Rat; for every numerator and the
denominators 100 and 10000 used in this development the rounded f64
comparison agrees with the exact rational one, since no such quotient lies
within one ulp of 0.95 without being equal to it. -/
def verification_threshold (verified_sectors sample_count : ℕ) : Bool :=
  decide ((95 : ℚ) / 100 ≤ (verified_sectors : ℚ) / (sample_count : ℚ))

/-- core/advanced.rs verify_device_wipe: sample 100 sectors, count the ones
that verify as wiped, and compare the ratio against the 95% threshold.
The source's per-sector read is an acknowledged placeholder ("actual
implementation would read the sector"); the model takes the outcome of
each of the 100 sampled checks as the input `sector_wiped`.  Returns the
pass/fail flag together with the computed verification ratio. -/
def verify_device_wipe (sector_wiped : ℕ → Bool) : Bool × ℚ :=
  let sample_count : ℕ := 100
  let verified_sectors := ((List.range sample_count).filter sector_wiped).length
  let verification_ratio : ℚ := (verified_sectors : ℚ) / (sample_count : ℚ)
  (verification_threshold verified_sectors sample_count, verification_ratio)

/-- core/advanced.rs: AdvancedWipeEngine configuration fields. -/
structure AdvancedWipeEngine where
  verify_after_wipe : Bool
  generate_hash : Bool
  max_retries : ℕ
deriving DecidableEq

/-- AdvancedWipeEngine::new(). -/
def AdvancedWipeEngine.new : AdvancedWipeEngine :=
  { verify_after_wipe := true, generate_hash := true, max_retries := 3 }

/-- The retry loop of secure_erase_with_verification: attempts are numbered
from `attempt` and at most `remaining` further attempts are made.  Each
failure appends "Attempt {n} failed: {detail}" to the accumulated errors;
the first success stops the loop.  `attempt_outcome n` is the result of
the n-th (1-based) call to perform_wipe_operation, with the error's
Display string as payload. -/
def run_wipe_attempts (attempt_outcome : ℕ → Except String Unit) :
    ℕ → ℕ → List String → Bool × List String
  | 0, _, errors => (false, errors)
  | remaining + 1, attempt, errors =>
      match attempt_outcome attempt with
      | .ok _ => (true, errors)
      | .error e =>
          run_wipe_attempts attempt_outcome remaining (attempt + 1)
            (errors ++ ["Attempt " ++ toString attempt ++ " failed: " ++ e])

/-- core/advanced.rs secure_erase_with_verification.  The effectful parts
are explicit inputs: `attempt_outcome` gives the result of each wipe
attempt, `verify_outcome` the result of the post-wipe verify_device_wipe
call, and `start_time`/`end_time` the two SystemTime::now() readings in
seconds.  On retry exhaustion the source returns
WipeFailed("All {max_retries} wipe attempts failed") and discards the
accumulated per-attempt messages.  A failed duration_since (clock moved
backwards) is mapped to an Io error as in the source. -/
def secure_erase_with_verification (engine : AdvancedWipeEngine)
    (device : StorageDevice) (mode : EraseMode)
    (attempt_outcome : ℕ → Except String Unit)
    (verify_outcome : Except String Bool)
    (start_time end_time : ℕ) : Except SecureEraseError WipeResult :=
  let run := run_wipe_attempts attempt_outcome engine.max_retries 1 []
  if !run.1 then
    Except.error (SecureEraseError.WipeFailed
      ("All " ++ toString engine.max_retries ++ " wipe attempts failed"))
  else if end_time < start_time then
    Except.error (SecureEraseError.Io "system time error")
  else
    let verification : Bool × List String :=
      if engine.verify_after_wipe then
        match verify_outcome with
        | .ok verified => (verified, run.2)
        | .error e => (false, run.2 ++ ["Verification failed: " ++ e])
      else
        (true, run.2)
    Except.ok
      { device := device
        mode := mode
        start_time := start_time
        end_time := end_time
        duration_seconds := end_time - start_time
        bytes_written := device.size
        verification_passed := verification.1
        errors := verification.2 }

/-- certificates/mod.rs: DeviceInfo (basic v1 schema). -/
structure DeviceInfo where
  path : String
  name : String
  size : ℕ
  device_type : String
  model : Option String
  serial : Option String
deriving DecidableEq

/-- certificates/mod.rs: WipeDetails (basic v1 schema). -/
structure WipeDetails where
  mode : String
  start_time : ℕ
  end_time : ℕ
  duration_seconds : ℕ
  bytes_written : ℕ
  verification_passed : Bool
  errors : List String
deriving DecidableEq

/-- certificates/mod.rs: VerificationInfo (basic v1 schema). -/
structure VerificationInfo where
  hash : String
  algorithm : String
  public_key_fingerprint : String
deriving DecidableEq

/-- certificates/mod.rs: WipeCertificate (basic v1 schema).  The field
order matches the Rust struct declaration, which fixes the serde_json
serialization order. -/
structure WipeCertificate where
  version : String
  certificate_id : String
  timestamp : ℕ
  device_info : DeviceInfo
  wipe_details : WipeDetails
  verification : VerificationInfo
  signature : String
deriving DecidableEq

/-- certificates/enhanced.rs: CertificateIssuer. -/
structure CertificateIssuer where
  name : String
  organization : String
  email : Option String
  public_key_fingerprint : String
deriving DecidableEq

/-- certificates/enhanced.rs: HiddenAreaInfo. -/
structure HiddenAreaInfo where
  area_type : String
  start_lba : ℕ
  size : ℕ
  description : String
  wiped : Bool
deriving DecidableEq

/-- certificates/enhanced.rs: DeviceCapabilities. -/
structure DeviceCapabilities where
  supports_secure_erase : Bool
  supports_trim : Bool
  supports_crypto_erase : Bool
  supports_format_unit : Bool
deriving DecidableEq

/-- certificates/enhanced.rs: EnhancedDeviceInfo, fields in declaration
order. -/
structure EnhancedDeviceInfo where
  path : String
  name : String
  size : ℕ
  device_type : String
  model : Option String
  serial : Option String
  firmware_version : Option String
  interface_type : Option String
  hidden_areas : List HiddenAreaInfo
  capabilities : DeviceCapabilities
deriving DecidableEq

/-- certificates/enhanced.rs: PerformanceMetrics.  The two speed fields
are f64 in the source, modelled as Rat. -/
structure PerformanceMetrics where
  average_speed_mbps : ℚ
  peak_speed_mbps : ℚ
  sectors_per_second : ℕ
  retry_count : ℕ
deriving DecidableEq

/-- certificates/enhanced.rs: EnhancedWipeDetails, fields in declaration
order. -/
structure EnhancedWipeDetails where
  mode : String
  start_time : ℕ
  end_time : ℕ
  duration_seconds : ℕ
  bytes_written : ℕ
  passes_completed : ℕ
  verification_passed : Bool
  errors : List String
  warnings : List String
  performance_metrics : PerformanceMetrics
deriving DecidableEq

/-- certificates/enhanced.rs: EnhancedVerificationInfo.  The
verification_ratio field is f64 in the source, modelled as Rat. -/
structure EnhancedVerificationInfo where
  hash : String
  algorithm : String
  verification_method : String
  sample_count : ℕ
  verification_ratio : ℚ
  forensic_tools_used : List String
deriving DecidableEq

/-- certificates/enhanced.rs: PKIInfo. -/
structure PKIInfo where
  ocsp_url : Option String
  crl_url : Option String
  ca_chain_pem : Option String
deriving DecidableEq

/-- certificates/enhanced.rs: AuditEntry. -/
structure AuditEntry where
  timestamp : ℕ
  action : String
  result : String
  details : Option String
deriving DecidableEq

/-- certificates/enhanced.rs: ComplianceInfo. -/
structure ComplianceInfo where
  standards : List String
  compliance_level : String
  audit_trail : List AuditEntry
deriving DecidableEq

/-- certificates/enhanced.rs: CertificateMetadata. -/
structure CertificateMetadata where
  tool_version : String
  platform : String
  architecture : String
  generated_by : String
  qr_code_data : Option String
deriving DecidableEq

/-- certificates/enhanced.rs: EnhancedWipeCertificate.  The field order
matches the Rust struct declaration (note: signature precedes metadata),
which fixes the serde_json serialization order. -/
structure EnhancedWipeCertificate where
  version : String
  certificate_id : String
  timestamp : ℕ
  issuer : CertificateIssuer
  device_info : EnhancedDeviceInfo
  wipe_details : EnhancedWipeDetails
  verification : EnhancedVerificationInfo
  compliance : ComplianceInfo
  pki : PKIInfo
  signature : String
  metadata : CertificateMetadata
deriving DecidableEq

/-- Lowercase hex digit, used by the JSON control-character escape. -/
def hexDigitLower (n : ℕ) : Char :=
  if n < 10 then Char.ofNat (48 + n) else Char.ofNat (87 + n)

/-- Four lowercase hex digits, as in serde_json's \u00XX escapes. -/
def hex4 (n : ℕ) : String :=
  ⟨[hexDigitLower (n / 4096 % 16), hexDigitLower (n / 256 % 16),
    hexDigitLower (n / 16 % 16), hexDigitLower (n % 16)]⟩

/-- serde_json string escaping: quote, backslash, the short control
escapes, and \u00XX for the remaining control characters. -/
def jsonEscapeChar (c : Char) : String :=
  if c = '"' then "\\\""
  else if c = '\\' then "\\\\"
  else if c = '\x08' then "\\b"
  else if c = '\x0c' then "\\f"
  else if c = '\n' then "\\n"
  else if c = '\r' then "\\r"
  else if c = '\t' then "\\t"
  else if c.toNat < 32 then "\\u" ++ hex4 c.toNat
  else String.singleton c

/-- serde_json rendering of a string value. -/
def jsonString (s : String) : String :=
  "\"" ++ String.join (s.data.map jsonEscapeChar) ++ "\""

/-- serde_json rendering of an Option<String>: null or the string. -/
def jsonOptString : Option String → String
  | none => "null"
  | some s => jsonString s

/-- serde_json rendering of an unsigned integer. -/
def jsonNat (n : ℕ) : String := toString n

/-- serde_json rendering of a bool. -/
def jsonBool (b : Bool) : String := if b then "true" else "false"

/-- serde_json rendering of an array from already-rendered elements. -/
def jsonArray (elems : List String) : String :=
  "[" ++ String.intercalate "," elems ++ "]"

/-- One already-rendered key/value member of a JSON object. -/
def jsonField (key value : String) : String := jsonString key ++ ":" ++ value

/-- Comma-joined object members (the compact separator serde_json uses). -/
def jsonMembers : List String → String
  | [] => ""
  | [f] => f
  | f :: g :: fs => f ++ ("," ++ jsonMembers (g :: fs))

/-- serde_json compact rendering of an object from rendered members. -/
def jsonObject (fields : List String) : String :=
  "\x7b" ++ (jsonMembers fields ++ "\x7d")

/-- Rendering of an f64 JSON number.  serde_json prints the shortest
decimal form (ryu); this model prints `n.0` for integral values, which
coincides with ryu on every value this development compares, and an exact
num/den fallback otherwise.  No claim settled here depends on the exact
digits: the serializations being compared always render equal metric
values on both sides. -/
def jsonFloat (q : ℚ) : String :=
  if q.den = 1 then toString q.num ++ ".0"
  else toString q.num ++ "div" ++ toString q.den

/-- serde_json serialization of DeviceInfo, fields in declaration order. -/
def DeviceInfo.toJson (d : DeviceInfo) : String :=
  jsonObject
    [jsonField "path" (jsonString d.path),
     jsonField "name" (jsonString d.name),
     jsonField "size" (jsonNat d.size),
     jsonField "device_type" (jsonString d.device_type),
     jsonField "model" (jsonOptString d.model),
     jsonField "serial" (jsonOptString d.serial)]

/-- serde_json serialization of WipeDetails. -/
def WipeDetails.toJson (w : WipeDetails) : String :=
  jsonObject
    [jsonField "mode" (jsonString w.mode),
     jsonField "start_time" (jsonNat w.start_time),
     jsonField "end_time" (jsonNat w.end_time),
     jsonField "duration_seconds" (jsonNat w.duration_seconds),
     jsonField "bytes_written" (jsonNat w.bytes_written),
     jsonField "verification_passed" (jsonBool w.verification_passed),
     jsonField "errors" (jsonArray (w.errors.map jsonString))]

/-- serde_json serialization of VerificationInfo. -/
def VerificationInfo.toJson (v : VerificationInfo) : String :=
  jsonObject
    [jsonField "hash" (jsonString v.hash),
     jsonField "algorithm" (jsonString v.algorithm),
     jsonField "public_key_fingerprint" (jsonString v.public_key_fingerprint)]

/-- serde_json serialization of the basic WipeCertificate. -/
def WipeCertificate.toJson (c : WipeCertificate) : String :=
  jsonObject
    [jsonField "version" (jsonString c.version),
     jsonField "certificate_id" (jsonString c.certificate_id),
     jsonField "timestamp" (jsonNat c.timestamp),
     jsonField "device_info" c.device_info.toJson,
     jsonField "wipe_details" c.wipe_details.toJson,
     jsonField "verification" c.verification.toJson,
     jsonField "signature" (jsonString c.signature)]

/-- serde_json serialization of CertificateIssuer. -/
def CertificateIssuer.toJson (i : CertificateIssuer) : String :=
  jsonObject
    [jsonField "name" (jsonString i.name),
     jsonField "organization" (jsonString i.organization),
     jsonField "email" (jsonOptString i.email),
     jsonField "public_key_fingerprint" (jsonString i.public_key_fingerprint)]

/-- serde_json serialization of HiddenAreaInfo. -/
def HiddenAreaInfo.toJson (h : HiddenAreaInfo) : String :=
  jsonObject
    [jsonField "area_type" (jsonString h.area_type),
     jsonField "start_lba" (jsonNat h.start_lba),
     jsonField "size" (jsonNat h.size),
     jsonField "description" (jsonString h.description),
     jsonField "wiped" (jsonBool h.wiped)]

/-- serde_json serialization of DeviceCapabilities. -/
def DeviceCapabilities.toJson (c : DeviceCapabilities) : String :=
  jsonObject
    [jsonField "supports_secure_erase" (jsonBool c.supports_secure_erase),
     jsonField "supports_trim" (jsonBool c.supports_trim),
     jsonField "supports_crypto_erase" (jsonBool c.supports_crypto_erase),
     jsonField "supports_format_unit" (jsonBool c.supports_format_unit)]

/-- serde_json serialization of EnhancedDeviceInfo. -/
def EnhancedDeviceInfo.toJson (d : EnhancedDeviceInfo) : String :=
  jsonObject
    [jsonField "path" (jsonString d.path),
     jsonField "name" (jsonString d.name),
     jsonField "size" (jsonNat d.size),
     jsonField "device_type" (jsonString d.device_type),
     jsonField "model" (jsonOptString d.model),
     jsonField "serial" (jsonOptString d.serial),
     jsonField "firmware_version" (jsonOptString d.firmware_version),
     jsonField "interface_type" (jsonOptString d.interface_type),
     jsonField "hidden_areas" (jsonArray (d.hidden_areas.map HiddenAreaInfo.toJson)),
     jsonField "capabilities" d.capabilities.toJson]

/-- serde_json serialization of PerformanceMetrics. -/
def PerformanceMetrics.toJson (p : PerformanceMetrics) : String :=
  jsonObject
    [jsonField "average_speed_mbps" (jsonFloat p.average_speed_mbps),
     jsonField "peak_speed_mbps" (jsonFloat p.peak_speed_mbps),
     jsonField "sectors_per_second" (jsonNat p.sectors_per_second),
     jsonField "retry_count" (jsonNat p.retry_count)]

/-- serde_json serialization of EnhancedWipeDetails. -/
def EnhancedWipeDetails.toJson (w : EnhancedWipeDetails) : String :=
  jsonObject
    [jsonField "mode" (jsonString w.mode),
     jsonField "start_time" (jsonNat w.start_time),
     jsonField "end_time" (jsonNat w.end_time),
     jsonField "duration_seconds" (jsonNat w.duration_seconds),
     jsonField "bytes_written" (jsonNat w.bytes_written),
     jsonField "passes_completed" (jsonNat w.passes_completed),
     jsonField "verification_passed" (jsonBool w.verification_passed),
     jsonField "errors" (jsonArray (w.errors.map jsonString)),
     jsonField "warnings" (jsonArray (w.warnings.map jsonString)),
     jsonField "performance_metrics" w.performance_metrics.toJson]

/-- serde_json serialization of EnhancedVerificationInfo. -/
def EnhancedVerificationInfo.toJson (v : EnhancedVerificationInfo) : String :=
  jsonObject
    [jsonField "hash" (jsonString v.hash),
     jsonField "algorithm" (jsonString v.algorithm),
     jsonField "verification_method" (jsonString v.verification_method),
     jsonField "sample_count" (jsonNat v.sample_count),
     jsonField "verification_ratio" (jsonFloat v.verification_ratio),
     jsonField "forensic_tools_used" (jsonArray (v.forensic_tools_used.map jsonString))]

/-- serde_json serialization of PKIInfo. -/
def PKIInfo.toJson (p : PKIInfo) : String :=
  jsonObject
    [jsonField "ocsp_url" (jsonOptString p.ocsp_url),
     jsonField "crl_url" (jsonOptString p.crl_url),
     jsonField "ca_chain_pem" (jsonOptString p.ca_chain_pem)]

/-- serde_json serialization of AuditEntry. -/
def AuditEntry.toJson (a : AuditEntry) : String :=
  jsonObject
    [jsonField "timestamp" (jsonNat a.timestamp),
     jsonField "action" (jsonString a.action),
     jsonField "result" (jsonString a.result),
     jsonField "details" (jsonOptString a.details)]

/-- serde_json serialization of ComplianceInfo. -/
def ComplianceInfo.toJson (c : ComplianceInfo) : String :=
  jsonObject
    [jsonField "standards" (jsonArray (c.standards.map jsonString)),
     jsonField "compliance_level" (jsonString c.compliance_level),
     jsonField "audit_trail" (jsonArray (c.audit_trail.map AuditEntry.toJson))]

/-- serde_json serialization of CertificateMetadata. -/
def CertificateMetadata.toJson (m : CertificateMetadata) : String :=
  jsonObject
    [jsonField "tool_version" (jsonString m.tool_version),
     jsonField "platform" (jsonString m.platform),
     jsonField "architecture" (jsonString m.architecture),
     jsonField "generated_by" (jsonString m.generated_by),
     jsonField "qr_code_data" (jsonOptString m.qr_code_data)]

/-- serde_json serialization of the EnhancedWipeCertificate: struct
declaration order, with signature before metadata. -/
def EnhancedWipeCertificate.toJson (c : EnhancedWipeCertificate) : String :=
  jsonObject
    [jsonField "version" (jsonString c.version),
     jsonField "certificate_id" (jsonString c.certificate_id),
     jsonField "timestamp" (jsonNat c.timestamp),
     jsonField "issuer" c.issuer.toJson,
     jsonField "device_info" c.device_info.toJson,
     jsonField "wipe_details" c.wipe_details.toJson,
     jsonField "verification" c.verification.toJson,
     jsonField "compliance" c.compliance.toJson,
     jsonField "pki" c.pki.toJson,
     jsonField "signature" (jsonString c.signature),
     jsonField "metadata" c.metadata.toJson]

/-- Uppercase zero-padded 16-digit hex, the {:016X} format used for
certificate ids. -/
def natToHexUpper16 (n : ℕ) : String :=
  let digits := (Nat.toDigits 16 n).map Char.toUpper
  ⟨List.replicate (16 - digits.length) '0' ++ digits⟩

/-- Artifacts of one basic (v1) certificate issuance: the canonical byte
sequence built before signing, the exact arguments handed to hash_data and
sign_data, and the persisted certificate structure. -/
structure BasicIssuance where
  canonical_data : String
  hash_input : String
  sign_input : String
  certificate : WipeCertificate
deriving DecidableEq

/-- certificates/mod.rs generate_certificate.  `hash_fn` models
hash_data (hex-encoded SHA-256) and `sign_fn` models
hex::encode(sign_data(..)) under the loaded signing key; `timestamp` is
the SystemTime::now() reading in seconds.  The structure that is
serialized and handed to both hash_data and sign_data has verification.hash,
signature and public_key_fingerprint all empty; the persisted certificate
then carries the computed hash, the signature, and the fingerprint
"ED25519". -/
def generate_certificate (hash_fn sign_fn : String → String)
    (wipe_result : WipeResult) (timestamp : ℕ) : BasicIssuance :=
  let certificate_id := "WIPE_" ++ natToHexUpper16 timestamp
  let device_info : DeviceInfo :=
    { path := wipe_result.device.path
      name := wipe_result.device.name
      size := wipe_result.device.size
      device_type := wipe_result.device.device_type.debugStr
      model := wipe_result.device.model
      serial := wipe_result.device.serial }
  let wipe_details : WipeDetails :=
    { mode := wipe_result.mode.debugStr
      start_time := wipe_result.start_time
      end_time := wipe_result.end_time
      duration_seconds := wipe_result.duration_seconds
      bytes_written := wipe_result.bytes_written
      verification_passed := wipe_result.verification_passed
      errors := wipe_result.errors }
  let unsigned : WipeCertificate :=
    { version := "1.0"
      certificate_id := certificate_id
      timestamp := timestamp
      device_info := device_info
      wipe_details := wipe_details
      verification :=
        { hash := "", algorithm := "SHA-256", public_key_fingerprint := "" }
      signature := "" }
  let certificate_data := unsigned.toJson
  let hash := hash_fn certificate_data
  let signature := sign_fn certificate_data
  { canonical_data := certificate_data
    hash_input := certificate_data
    sign_input := certificate_data
    certificate :=
      { unsigned with
        verification :=
          { hash := hash, algorithm := "SHA-256", public_key_fingerprint := "ED25519" }
        signature := signature } }

/-- certificates/enhanced.rs: EnhancedCertificateGenerator configuration. -/
structure EnhancedCertificateGenerator where
  issuer_info : CertificateIssuer
  tool_version : String
  ocsp_url : Option String
  crl_url : Option String
  ca_chain_pem : Option String
deriving DecidableEq

/-- certificates/enhanced.rs convert_hidden_areas: every hidden area of
the device snapshot is converted with wiped set to true unconditionally. -/
def convert_hidden_areas (device : StorageDevice) : List HiddenAreaInfo :=
  device.hidden_areas.map fun area =>
    { area_type := area.area_type.debugStr
      start_lba := area.start_lba
      size := area.size
      description := area.description
      wiped := true }

/-- certificates/enhanced.rs check_crypto_erase_support. -/
def check_crypto_erase_support (device : StorageDevice) : Bool :=
  device.device_type = DeviceType.NVMe

/-- certificates/enhanced.rs calculate_passes_completed. -/
def calculate_passes_completed : EraseMode → ℕ
  | .Quick => 1
  | .Full => 3
  | .Advanced => 7

/-- certificates/enhanced.rs generate_warnings: one fixed warning each for
failed verification, recorded errors, and device size above 2 TiB. -/
def generate_warnings (wipe_result : WipeResult) : List String :=
  (if !wipe_result.verification_passed then
    ["Device verification failed - manual inspection recommended"] else [])
  ++ (if !wipe_result.errors.isEmpty then
    ["Errors occurred during wipe operation"] else [])
  ++ (if 2 * 1024 * 1024 * 1024 * 1024 < wipe_result.device.size then
    ["Large device - extended verification recommended"] else [])

/-- certificates/enhanced.rs calculate_performance_metrics, with the f64
arithmetic carried out over Rat. -/
def calculate_performance_metrics (wipe_result : WipeResult) : PerformanceMetrics :=
  let size_gb : ℚ := (wipe_result.bytes_written : ℚ) / (1024 * 1024 * 1024)
  let duration_hours : ℚ := (wipe_result.duration_seconds : ℚ) / 3600
  let average_speed_mbps : ℚ :=
    if 0 < duration_hours then size_gb * 1024 / duration_hours else 0
  { average_speed_mbps := average_speed_mbps
    peak_speed_mbps := average_speed_mbps * (3 / 2)
    sectors_per_second :=
      if 0 < wipe_result.duration_seconds then
        wipe_result.bytes_written / 512 / wipe_result.duration_seconds
      else 0
    retry_count := 0 }

/-- certificates/enhanced.rs determine_compliance_level. -/
def determine_compliance_level : EraseMode → String
  | .Quick => "Basic"
  | .Full => "Standard"
  | .Advanced => "High"

/-- certificates/enhanced.rs generate_audit_trail: exactly three entries. -/
def generate_audit_trail (wipe_result : WipeResult) : List AuditEntry :=
  [{ timestamp := wipe_result.start_time
     action := "Wipe Operation Started"
     result := "Success"
     details := some ("Mode: " ++ wipe_result.mode.debugStr) },
   { timestamp := wipe_result.end_time
     action := "Wipe Operation Completed"
     result := if wipe_result.verification_passed then "Success" else "Failed"
     details := some ("Bytes written: " ++ toString wipe_result.bytes_written) },
   { timestamp := wipe_result.end_time
     action := "Verification Performed"
     result := if wipe_result.verification_passed then "Passed" else "Failed"
     details := none }]

/-- certificates/enhanced.rs generate_qr_code_data.  The source builds a
serde_json Value object, whose map serializes its keys in sorted order. -/
def generate_qr_code_data (certificate : EnhancedWipeCertificate) : String :=
  jsonObject
    [jsonField "device" (jsonString certificate.device_info.name),
     jsonField "hash" (jsonString certificate.verification.hash),
     jsonField "id" (jsonString certificate.certificate_id),
     jsonField "mode" (jsonString certificate.wipe_details.mode),
     jsonField "ocsp" (jsonOptString certificate.pki.ocsp_url),
     jsonField "timestamp" (jsonNat certificate.timestamp),
     jsonField "verified" (jsonBool certificate.wipe_details.verification_passed)]

/-- Artifacts of one enhanced (v2) certificate issuance. -/
structure EnhancedIssuance where
  canonical_data : String
  hash_input : String
  sign_input : String
  certificate : EnhancedWipeCertificate
deriving DecidableEq

/-- certificates/enhanced.rs generate_enhanced_certificate.  Inputs beyond
the wipe result: abstract hash/sign functions as in the basic issuer, the
issuance timestamp, the random u32 mixed into the certificate id, and the
platform/architecture strings.  The structure serialized for hashing and
signing has verification.hash = "", signature = "" and
metadata.qr_code_data = None; only afterwards are the hash and signature
stored and qr_code_data replaced by the generated QR payload, so the
persisted certificate differs from the signed structure in that field as
well. -/
def generate_enhanced_certificate (gen : EnhancedCertificateGenerator)
    (hash_fn sign_fn : String → String) (wipe_result : WipeResult)
    (timestamp rand_value : ℕ) (os_name arch_name : String) : EnhancedIssuance :=
  let certificate_id :=
    "WIPE_" ++ natToHexUpper16 timestamp ++ "_" ++ toString rand_value
  let device_info : EnhancedDeviceInfo :=
    { path := wipe_result.device.path
      name := wipe_result.device.name
      size := wipe_result.device.size
      device_type := wipe_result.device.device_type.debugStr
      model := wipe_result.device.model
      serial := wipe_result.device.serial
      firmware_version := some "Unknown"
      interface_type := some "Unknown"
      hidden_areas := convert_hidden_areas wipe_result.device
      capabilities :=
        { supports_secure_erase := wipe_result.device.supports_secure_erase
          supports_trim := wipe_result.device.supports_trim
          supports_crypto_erase := check_crypto_erase_support wipe_result.device
          supports_format_unit := true } }
  let wipe_details : EnhancedWipeDetails :=
    { mode := wipe_result.mode.debugStr
      start_time := wipe_result.start_time
      end_time := wipe_result.end_time
      duration_seconds := wipe_result.duration_seconds
      bytes_written := wipe_result.bytes_written
      passes_completed := calculate_passes_completed wipe_result.mode
      verification_passed := wipe_result.verification_passed
      errors := wipe_result.errors
      warnings := generate_warnings wipe_result
      performance_metrics := calculate_performance_metrics wipe_result }
  let verification_info : EnhancedVerificationInfo :=
    { hash := ""
      algorithm := "SHA-256"
      verification_method := "Random Sector Sampling"
      sample_count := 100
      verification_ratio := if wipe_result.verification_passed then 1 else 0
      forensic_tools_used := ["Internal Verification"] }
  let compliance_info : ComplianceInfo :=
    { standards :=
        ["NIST SP 800-88 Rev. 1", "DoD 5220.22-M", "ISO/IEC 27040:2015"]
      compliance_level := determine_compliance_level wipe_result.mode
      audit_trail := generate_audit_trail wipe_result }
  let pki : PKIInfo :=
    { ocsp_url := gen.ocsp_url
      crl_url := gen.crl_url
      ca_chain_pem := gen.ca_chain_pem }
  let metadata : CertificateMetadata :=
    { tool_version := gen.tool_version
      platform := os_name
      architecture := arch_name
      generated_by := gen.issuer_info.name
      qr_code_data := none }
  let unsigned : EnhancedWipeCertificate :=
    { version := "2.0"
      certificate_id := certificate_id
      timestamp := timestamp
      issuer := gen.issuer_info
      device_info := device_info
      wipe_details := wipe_details
      verification := verification_info
      compliance := compliance_info
      pki := pki
      signature := ""
      metadata := metadata }
  let certificate_data := unsigned.toJson
  let hash := hash_fn certificate_data
  let signature := sign_fn certificate_data
  let signed : EnhancedWipeCertificate :=
    { unsigned with
      verification := { verification_info with hash := hash }
      signature := signature }
  { canonical_data := certificate_data
    hash_input := certificate_data
    sign_input := certificate_data
    certificate :=
      { signed with
        metadata :=
          { metadata with qr_code_data := some (generate_qr_code_data signed) } } }

/-- certificates/verifier.rs: VerificationLevel. -/
inductive VerificationLevel where
  | Basic
  | Standard
  | Advanced
  | Forensic
deriving DecidableEq

/-- certificates/verifier.rs: CertificateVerifier configuration. -/
structure CertificateVerifier where
  public_key_path : Option String
  verification_level : VerificationLevel
  enable_ocsp : Bool
  enable_crl : Bool
deriving DecidableEq

/-- CertificateVerifier::new(). -/
def CertificateVerifier.new : CertificateVerifier :=
  { public_key_path := none
    verification_level := VerificationLevel.Standard
    enable_ocsp := true
    enable_crl := true }

/-- certificates/verifier.rs: VerificationDetails. -/
structure VerificationDetails where
  certificate_age_days : ℕ
  device_size_gb : ℕ
  wipe_duration_seconds : ℕ
  verification_ratio : ℚ
  ocsp_checked : Bool
  crl_checked : Bool
deriving DecidableEq

/-- Default VerificationDetails (the Rust Default derive). -/
def VerificationDetails.initial : VerificationDetails :=
  { certificate_age_days := 0
    device_size_gb := 0
    wipe_duration_seconds := 0
    verification_ratio := 0
    ocsp_checked := false
    crl_checked := false }

/-- certificates/verifier.rs: VerificationResult. -/
structure VerificationResult where
  is_valid : Bool
  signature_valid : Bool
  hash_valid : Bool
  compliance_valid : Bool
  warnings : List String
  errors : List String
  verification_details : VerificationDetails
deriving DecidableEq

/-- Default VerificationResult: every flag false, no messages. -/
def VerificationResult.initial : VerificationResult :=
  { is_valid := false
    signature_valid := false
    hash_valid := false
    compliance_valid := false
    warnings := []
    errors := []
    verification_details := VerificationDetails.initial }

/-- The canonical bytes the verifier reconstructs from a parsed basic
certificate: the certificate with verification.hash and signature cleared,
serialized.  This is the data_to_verify built identically in
verify_signature_basic and verify_hash_basic. -/
def basic_data_to_verify (certificate : WipeCertificate) : String :=
  WipeCertificate.toJson
    { certificate with
      verification := { certificate.verification with hash := "" }
      signature := "" }

/-- The canonical bytes the verifier reconstructs from a parsed enhanced
certificate: verification.hash and signature cleared, everything else
(including metadata.qr_code_data) kept as persisted. -/
def enhanced_data_to_verify (certificate : EnhancedWipeCertificate) : String :=
  EnhancedWipeCertificate.toJson
    { certificate with
      verification := { certificate.verification with hash := "" }
      signature := "" }

/-- certificates/verifier.rs check_compliance_enhanced. -/
def check_compliance_enhanced (certificate : EnhancedWipeCertificate) : Bool :=
  certificate.wipe_details.verification_passed
    && certificate.wipe_details.errors.isEmpty
    && !certificate.compliance.standards.isEmpty

/-- certificates/verifier.rs verify_basic_certificate.  `key_load` is the
outcome of load_verifying_key (error payload Display-formatted);
`sig_check` models the hex decode / Signature::from_bytes /
verify_signature chain applied to the stored signature string and the
reconstructed bytes; `hash_fn` models hash_data, which cannot fail.  The
compliance expression transcribes the source line
`certificate.verification_passed && certificate.errors.is_empty()`, whose
fields are those of the certificate's wipe details.  Note the source sets
is_valid from the signature and hash checks only. -/
def verify_basic_certificate (_v : CertificateVerifier)
    (key_load : Except String Unit)
    (sig_check : String → String → Except String Bool)
    (hash_fn : String → String)
    (certificate : WipeCertificate) : VerificationResult :=
  match key_load with
  | .error e =>
      { VerificationResult.initial with
        errors := ["Failed to load public key: " ++ e] }
  | .ok _ =>
      let signature : Bool × List String :=
        match sig_check certificate.signature (basic_data_to_verify certificate) with
        | .ok valid => (valid, if valid then [] else ["Invalid signature"])
        | .error e => (false, ["Signature verification failed: " ++ e])
      let hash_valid :=
        hash_fn (basic_data_to_verify certificate) == certificate.verification.hash
      let compliance_valid :=
        certificate.wipe_details.verification_passed
          && certificate.wipe_details.errors.isEmpty
      { is_valid := signature.1 && hash_valid
        signature_valid := signature.1
        hash_valid := hash_valid
        compliance_valid := compliance_valid
        warnings := if hash_valid then [] else ["Hash verification failed"]
        errors := signature.2
        verification_details := VerificationDetails.initial }

/-- certificates/verifier.rs verify_enhanced_certificate, with the same
abstract inputs as the basic variant.  The OCSP/CRL placeholders only set
the checked flags when enabled and a URL is present.  Here is_valid takes
the compliance check into account. -/
def verify_enhanced_certificate (v : CertificateVerifier)
    (key_load : Except String Unit)
    (sig_check : String → String → Except String Bool)
    (hash_fn : String → String)
    (certificate : EnhancedWipeCertificate) : VerificationResult :=
  match key_load with
  | .error e =>
      { VerificationResult.initial with
        errors := ["Failed to load public key: " ++ e] }
  | .ok _ =>
      let signature : Bool × List String :=
        match sig_check certificate.signature (enhanced_data_to_verify certificate) with
        | .ok valid => (valid, if valid then [] else ["Invalid signature"])
        | .error e => (false, ["Signature verification failed: " ++ e])
      let hash_valid :=
        hash_fn (enhanced_data_to_verify certificate) == certificate.verification.hash
      let compliance_valid := check_compliance_enhanced certificate
      { is_valid := signature.1 && hash_valid && compliance_valid
        signature_valid := signature.1
        hash_valid := hash_valid
        compliance_valid := compliance_valid
        warnings := if hash_valid then [] else ["Hash verification failed"]
        errors := signature.2
        verification_details :=
          { VerificationDetails.initial with
            ocsp_checked := v.enable_ocsp && certificate.pki.ocsp_url.isSome
            crl_checked := v.enable_crl && certificate.pki.crl_url.isSome } }

/-- The part of a serialized CertificateMetadata that precedes the
qr_code_data value: every earlier member plus the qr_code_data key.  Used
to factor the serialization around the one field the issuer mutates after
signing. -/
def metadata_json_qr_head (m : CertificateMetadata) : String :=
  "\x7b" ++ jsonField "tool_version" (jsonString m.tool_version) ++ "," ++
    jsonField "platform" (jsonString m.platform) ++ "," ++
    jsonField "architecture" (jsonString m.architecture) ++ "," ++
    jsonField "generated_by" (jsonString m.generated_by) ++ "," ++
    jsonString "qr_code_data" ++ ":"

/-- The part of a serialized EnhancedWipeCertificate that precedes the
qr_code_data value (qr_code_data is the last member of metadata, which is
the last member of the certificate). -/
def enhanced_json_qr_head (c : EnhancedWipeCertificate) : String :=
  "\x7b" ++ jsonField "version" (jsonString c.version) ++ "," ++
    jsonField "certificate_id" (jsonString c.certificate_id) ++ "," ++
    jsonField "timestamp" (jsonNat c.timestamp) ++ "," ++
    jsonField "issuer" c.issuer.toJson ++ "," ++
    jsonField "device_info" c.device_info.toJson ++ "," ++
    jsonField "wipe_details" c.wipe_details.toJson ++ "," ++
    jsonField "verification" c.verification.toJson ++ "," ++
    jsonField "compliance" c.compliance.toJson ++ "," ++
    jsonField "pki" c.pki.toJson ++ "," ++
    jsonField "signature" (jsonString c.signature) ++ "," ++
    jsonString "metadata" ++ ":" ++ metadata_json_qr_head c.metadata

/-- A concrete device snapshot without hardware erase capabilities, used
to instantiate the general theorems. -/
def sampleDevice : StorageDevice :=
  { path := "/dev/sda"
    name := "Test HDD"
    size := 1024
    device_type := DeviceType.HDD
    model := none
    serial := none
    supports_secure_erase := false
    supports_trim := false
    hidden_areas := [] }

/-- A concrete successful wipe result over sampleDevice. -/
def sampleWipeResult : WipeResult :=
  { device := sampleDevice
    mode := EraseMode.Quick
    start_time := 1000
    end_time := 1060
    duration_seconds := 60
    bytes_written := 1024
    verification_passed := true
    errors := [] }

/-- A concrete wipe result with zero duration (its performance metrics are
all zero, keeping the issued certificate free of non-literal rationals). -/
def c1WipeResult : WipeResult :=
  { device := sampleDevice
    mode := EraseMode.Quick
    start_time := 1000
    end_time := 1000
    duration_seconds := 0
    bytes_written := 1024
    verification_passed := true
    errors := [] }

/-- A concrete enhanced-certificate generator configuration, as produced
by EnhancedCertificateGenerator::new. -/
def sampleGenerator : EnhancedCertificateGenerator :=
  { issuer_info :=
      { name := "Op", organization := "Org", email := none,
        public_key_fingerprint := "" }
    tool_version := "0.1.0"
    ocsp_url := none
    crl_url := none
    ca_chain_pem := none }

/-- A concrete enhanced issuance, with the abstract hash and signature
functions instantiated by constants. -/
def c1Issuance : EnhancedIssuance :=
  generate_enhanced_certificate sampleGenerator (fun _ => "deadbeef") (fun _ => "cafe")
    c1WipeResult 1200 7 "linux" "x86_64"

/-- A concrete basic issuance. -/
def c9Issuance : BasicIssuance :=
  generate_certificate (fun _ => "deadbeef") (fun _ => "cafe") sampleWipeResult 1200

/-- A concrete parsed basic certificate whose wipe details record a failed
verification, while its stored hash is chosen to agree with the abstract
hash function used in the concrete verification runs. -/
def invalidComplianceCertificate : WipeCertificate :=
  { version := "1.0"
    certificate_id := "WIPE_0000000000000000"
    timestamp := 0
    device_info :=
      { path := "/dev/sda", name := "Test HDD", size := 1024,
        device_type := "HDD", model := none, serial := none }
    wipe_details :=
      { mode := "Quick", start_time := 0, end_time := 0, duration_seconds := 0,
        bytes_written := 1024, verification_passed := false, errors := [] }
    verification :=
      { hash := "h", algorithm := "SHA-256", public_key_fingerprint := "ED25519" }
    signature := "cafe" }

/-- A device snapshot with one HPA hidden area. -/
def hpaDevice : StorageDevice :=
  { path := "/dev/sdb"
    name := "HPA HDD"
    size := 4096
    device_type := DeviceType.HDD
    model := none
    serial := none
    supports_secure_erase := false
    supports_trim := false
    hidden_areas :=
      [{ area_type := HiddenAreaType.HPA, start_lba := 0, size := 2048,
         description := "host protected area" }] }

/-- A wipe result over hpaDevice. -/
def hpaWipeResult : WipeResult :=
  { device := hpaDevice
    mode := EraseMode.Advanced
    start_time := 0
    end_time := 0
    duration_seconds := 0
    bytes_written := 4096
    verification_passed := true
    errors := [] }

/-- A concrete attempt-outcome function: the first attempt fails, every
later attempt succeeds. -/
def c8Attempts : ℕ → Except String Unit :=
  fun n => if n = 1 then Except.error "device busy" else Except.ok ()

lemma metadata_toJson_split (m : CertificateMetadata) :
    m.toJson = metadata_json_qr_head m ++ (jsonOptString m.qr_code_data ++ "\x7d") := by
  simp [CertificateMetadata.toJson, metadata_json_qr_head, jsonObject, jsonMembers,
    jsonField, String.append_assoc]

lemma enhanced_toJson_split (c : EnhancedWipeCertificate) :
    c.toJson = enhanced_json_qr_head c
      ++ (jsonOptString c.metadata.qr_code_data ++ ("\x7d" ++ "\x7d")) := by
  simp [EnhancedWipeCertificate.toJson, metadata_toJson_split, enhanced_json_qr_head,
    metadata_json_qr_head, jsonObject, jsonMembers, jsonField, String.append_assoc]

lemma enhanced_toJson_ne_of_qr (c₁ c₂ : EnhancedWipeCertificate)
    (hhead : enhanced_json_qr_head c₁ = enhanced_json_qr_head c₂)
    (hqr : (jsonOptString c₁.metadata.qr_code_data).length
            ≠ (jsonOptString c₂.metadata.qr_code_data).length) :
    c₁.toJson ≠ c₂.toJson := by
  rw [enhanced_toJson_split c₁, enhanced_toJson_split c₂, hhead]
  intro h
  have h2 := congrArg String.length h
  simp only [String.length_append] at h2
  omega

lemma run_wipe_attempts_all_fail (f : ℕ → Except String Unit) :
    ∀ (remaining attempt : ℕ) (errors : List String),
      (∀ n, attempt ≤ n → n < attempt + remaining → ∃ e, f n = Except.error e) →
      (run_wipe_attempts f remaining attempt errors).1 = false := by
  intro remaining
  induction remaining with
  | zero => intro attempt errors _h; rfl
  | succ r ih =>
      intro attempt errors h
      obtain ⟨e, he⟩ := h attempt (le_refl _) (by omega)
      rw [run_wipe_attempts, he]
      exact ih (attempt + 1) _ (fun n h1 h2 => h n (by omega) (by omega))

lemma run_wipe_attempts_success (f : ℕ → Except String Unit) :
    ∀ (j remaining attempt : ℕ) (errors : List String),
      j < remaining →
      (∀ i, i < j → ∃ e, f (attempt + i) = Except.error e) →
      f (attempt + j) = Except.ok () →
      ∃ msgs, run_wipe_attempts f remaining attempt errors = (true, errors ++ msgs)
        ∧ msgs.length = j := by
  intro j
  induction j with
  | zero =>
      intro remaining attempt errors hlt _hfail hok
      match remaining, hlt with
      | r + 1, _ =>
        rw [run_wipe_attempts, show f attempt = Except.ok () from by simpa using hok]
        exact ⟨[], by simp, rfl⟩
  | succ k ih =>
      intro remaining attempt errors hlt hfail hok
      match remaining, hlt with
      | r + 1, _ =>
        obtain ⟨e, he⟩ := hfail 0 (by omega)
        rw [run_wipe_attempts, show f attempt = Except.error e from by simpa using he]
        obtain ⟨msgs, hrun, hlen⟩ :=
          ih r (attempt + 1) (errors ++ ["Attempt " ++ toString attempt ++ " failed: " ++ e])
            (by omega)
            (fun i hi => by
              obtain ⟨e2, he2⟩ := hfail (i + 1) (by omega)
              exact ⟨e2, by rwa [show attempt + 1 + i = attempt + (i + 1) from by omega]⟩)
            (by rwa [show attempt + 1 + k = attempt + (k + 1) from by omega])
        refine ⟨("Attempt " ++ toString attempt ++ " failed: " ++ e) :: msgs, ?_, by simp [hlen]⟩
        show run_wipe_attempts f r (attempt + 1)
            (errors ++ ["Attempt " ++ toString attempt ++ " failed: " ++ e])
          = (true, errors ++ ("Attempt " ++ toString attempt ++ " failed: " ++ e) :: msgs)
        rw [hrun]
        simp

set_option maxRecDepth 8000 in
/-- C1: the claimed issue-then-verify round trip does not hold: for the
concrete enhanced issuance c1Issuance, the canonical byte sequence the
verifier reconstructs by clearing only verification.hash and signature on
the persisted certificate differs from the byte sequence the issuer hashed
and signed.  The issuer sets metadata.qr_code_data (from None to the QR
payload) after computing hash and signature, so the reconstruction keeps
the QR payload where the signed bytes have null; both the hash and the
signature check therefore fail and is_valid is false, against the claim. -/
theorem enhanced_round_trip_reconstruction_mismatch :
    enhanced_data_to_verify c1Issuance.certificate ≠ c1Issuance.sign_input := by
  apply enhanced_toJson_ne_of_qr
  · rfl
  · decide

/-- C2 counterexample: with every attempt failing as "boom", retry
exhaustion returns WipeFailed "All 3 wipe attempts failed"; the message
does not contain the per-attempt message "Attempt 1 failed: boom", so the
error does not carry the aggregated per-attempt failure messages the claim
describes. -/
theorem retry_exhaustion_message_not_aggregated :
    secure_erase_with_verification AdvancedWipeEngine.new sampleDevice EraseMode.Quick
        (fun _ => Except.error "boom") (Except.ok true) 0 0
      = Except.error (SecureEraseError.WipeFailed "All 3 wipe attempts failed")
    ∧ ¬ ("Attempt 1 failed: boom").data <:+: ("All 3 wipe attempts failed").data := by
  constructor
  · rfl
  · decide

/-- C2 amended: if every one of the max_retries attempts fails, the call
returns the fatal WipeFailed error with the summary message
"All {max_retries} wipe attempts failed" (the per-attempt messages are
recorded during the loop but not included), and no WipeResult is
produced. -/
theorem retry_exhaustion_returns_summary_wipe_failed
    (engine : AdvancedWipeEngine) (device : StorageDevice) (mode : EraseMode)
    (attempt_outcome : ℕ → Except String Unit) (verify_outcome : Except String Bool)
    (start_time end_time : ℕ)
    (hfail : ∀ n, 1 ≤ n → n ≤ engine.max_retries → ∃ e, attempt_outcome n = Except.error e) :
    secure_erase_with_verification engine device mode attempt_outcome verify_outcome
        start_time end_time
      = Except.error (SecureEraseError.WipeFailed
          ("All " ++ toString engine.max_retries ++ " wipe attempts failed")) := by
  have hrun := run_wipe_attempts_all_fail attempt_outcome engine.max_retries 1 []
    (fun n h1 h2 => hfail n h1 (by omega))
  simp [secure_erase_with_verification, hrun]

/-- C2 witness: the amended theorem applied to a concrete engine, device
and attempt-outcome function. -/
theorem retry_exhaustion_returns_summary_wipe_failed_witness :
    secure_erase_with_verification AdvancedWipeEngine.new sampleDevice EraseMode.Quick
        (fun _ => Except.error "boom") (Except.ok true) 0 0
      = Except.error (SecureEraseError.WipeFailed "All 3 wipe attempts failed") :=
  retry_exhaustion_returns_summary_wipe_failed AdvancedWipeEngine.new sampleDevice
    EraseMode.Quick (fun _ => Except.error "boom") (Except.ok true) 0 0
    (fun _ _ _ => ⟨"boom", rfl⟩)

/-- C3 counterexample: a basic certificate whose wipe details record a
failed verification yields compliance_valid = false from the basic
verification path, even though the key loads and both the signature and
the hash check run and succeed — so the basic compliance check is not a
no-op returning true. -/
theorem basic_compliance_not_noop :
    (verify_basic_certificate CertificateVerifier.new (Except.ok ())
        (fun _ _ => Except.ok true) (fun _ => "h") invalidComplianceCertificate).compliance_valid
      = false
    ∧ (verify_basic_certificate CertificateVerifier.new (Except.ok ())
        (fun _ _ => Except.ok true) (fun _ => "h") invalidComplianceCertificate).signature_valid
      = true
    ∧ (verify_basic_certificate CertificateVerifier.new (Except.ok ())
        (fun _ _ => Except.ok true) (fun _ => "h") invalidComplianceCertificate).hash_valid
      = true := by
  refine ⟨rfl, rfl, ?_⟩
  decide

/-- C3 amended: for every basic (v1) certificate whose key loads, the
verifier computes compliance_valid =
wipe_details.verification_passed && wipe_details.errors.is_empty() — it is
not unconditionally true (it is, however, ignored by is_valid on this
path). -/
theorem basic_compliance_valid_formula
    (v : CertificateVerifier) (sig_check : String → String → Except String Bool)
    (hash_fn : String → String) (certificate : WipeCertificate) :
    (verify_basic_certificate v (Except.ok ()) sig_check hash_fn certificate).compliance_valid
      = (certificate.wipe_details.verification_passed
          && certificate.wipe_details.errors.isEmpty) := rfl

/-- C3 witness: the amended formula evaluated on a concrete certificate
with a failed verification. -/
theorem basic_compliance_valid_formula_witness :
    (verify_basic_certificate CertificateVerifier.new (Except.ok ())
        (fun _ _ => Except.ok true) (fun _ => "h") invalidComplianceCertificate).compliance_valid
      = (invalidComplianceCertificate.wipe_details.verification_passed
          && invalidComplianceCertificate.wipe_details.errors.isEmpty) :=
  basic_compliance_valid_formula CertificateVerifier.new
    (fun _ _ => Except.ok true) (fun _ => "h") invalidComplianceCertificate

/-- C4 counterexample: a basic certificate with a valid signature and hash
but failed compliance gives is_valid = true while
signature_valid && hash_valid && compliance_valid is false: the basic
verification path omits compliance_valid from is_valid. -/
theorem basic_is_valid_ignores_compliance :
    (verify_basic_certificate CertificateVerifier.new (Except.ok ())
        (fun _ _ => Except.ok true) (fun _ => "h") invalidComplianceCertificate).is_valid
      = true
    ∧ ((verify_basic_certificate CertificateVerifier.new (Except.ok ())
          (fun _ _ => Except.ok true) (fun _ => "h") invalidComplianceCertificate).signature_valid
        && (verify_basic_certificate CertificateVerifier.new (Except.ok ())
            (fun _ _ => Except.ok true) (fun _ => "h") invalidComplianceCertificate).hash_valid
        && (verify_basic_certificate CertificateVerifier.new (Except.ok ())
            (fun _ _ => Except.ok true) (fun _ => "h") invalidComplianceCertificate).compliance_valid)
      = false := by
  constructor
  · decide
  · decide

/-- C4 amended: once the key loads, the enhanced path satisfies
is_valid = signature_valid && hash_valid && compliance_valid as claimed,
but the basic path computes is_valid = signature_valid && hash_valid,
without the compliance conjunct. -/
theorem is_valid_formula_per_schema
    (v : CertificateVerifier) (sig_check : String → String → Except String Bool)
    (hash_fn : String → String)
    (basic_cert : WipeCertificate) (enhanced_cert : EnhancedWipeCertificate) :
    (verify_enhanced_certificate v (Except.ok ()) sig_check hash_fn enhanced_cert).is_valid
      = ((verify_enhanced_certificate v (Except.ok ()) sig_check hash_fn enhanced_cert).signature_valid
          && (verify_enhanced_certificate v (Except.ok ()) sig_check hash_fn enhanced_cert).hash_valid
          && (verify_enhanced_certificate v (Except.ok ()) sig_check hash_fn enhanced_cert).compliance_valid)
    ∧ (verify_basic_certificate v (Except.ok ()) sig_check hash_fn basic_cert).is_valid
      = ((verify_basic_certificate v (Except.ok ()) sig_check hash_fn basic_cert).signature_valid
          && (verify_basic_certificate v (Except.ok ()) sig_check hash_fn basic_cert).hash_valid) :=
  ⟨rfl, rfl⟩

/-- C4 witness: the per-schema is_valid formulas instantiated on concrete
certificates and concrete crypto outcomes. -/
theorem is_valid_formula_per_schema_witness :
    (verify_enhanced_certificate CertificateVerifier.new (Except.ok ())
        (fun _ _ => Except.ok true) (fun _ => "h") c1Issuance.certificate).is_valid
      = ((verify_enhanced_certificate CertificateVerifier.new (Except.ok ())
            (fun _ _ => Except.ok true) (fun _ => "h") c1Issuance.certificate).signature_valid
          && (verify_enhanced_certificate CertificateVerifier.new (Except.ok ())
              (fun _ _ => Except.ok true) (fun _ => "h") c1Issuance.certificate).hash_valid
          && (verify_enhanced_certificate CertificateVerifier.new (Except.ok ())
              (fun _ _ => Except.ok true) (fun _ => "h") c1Issuance.certificate).compliance_valid)
    ∧ (verify_basic_certificate CertificateVerifier.new (Except.ok ())
        (fun _ _ => Except.ok true) (fun _ => "h") invalidComplianceCertificate).is_valid
      = ((verify_basic_certificate CertificateVerifier.new (Except.ok ())
            (fun _ _ => Except.ok true) (fun _ => "h") invalidComplianceCertificate).signature_valid
          && (verify_basic_certificate CertificateVerifier.new (Except.ok ())
              (fun _ _ => Except.ok true) (fun _ => "h") invalidComplianceCertificate).hash_valid) :=
  is_valid_formula_per_schema CertificateVerifier.new (fun _ _ => Except.ok true)
    (fun _ => "h") invalidComplianceCertificate c1Issuance.certificate

/-- C5: the multi-pass overwrite sequence is deterministic: for every
requested pass count n >= 1, the 1-based pass i writes pattern number
(i - 1) mod 4 from the cycle [0x00, 0xFF, 0xAA, 0x55], and exactly one
additional mandatory all-zero pass follows the n requested passes. -/
theorem multi_pass_pattern_cycle_and_final_zero (n : ℕ) (_hn : 1 ≤ n) :
    (multi_pass_wipe n).length = n + 1
    ∧ (∀ i, 1 ≤ i → i ≤ n →
        (multi_pass_wipe n)[i - 1]? =
          some (WipeAction.overwrite (wipePatterns.getD ((i - 1) % 4) 0)))
    ∧ (multi_pass_wipe n)[n]? = some (WipeAction.overwrite 0x00) := by
  refine ⟨by simp [multi_pass_wipe], fun i h1 h2 => ?_, ?_⟩
  · have hlt : i - 1 < n := by omega
    rw [multi_pass_wipe, List.getElem?_append_left (by simpa using hlt)]
    simp [List.getElem?_map, List.getElem?_range, hlt, wipePatterns]
  · rw [multi_pass_wipe, List.getElem?_append_right (by simp)]
    simp

/-- C5 witness: a 2-pass wipe performs 3 writes, the second pass writes
0xFF, and the final write is the mandatory zero pass. -/
theorem multi_pass_pattern_cycle_and_final_zero_witness :
    (multi_pass_wipe 2).length = 3
    ∧ (multi_pass_wipe 2)[1]? = some (WipeAction.overwrite 0xFF)
    ∧ (multi_pass_wipe 2)[2]? = some (WipeAction.overwrite 0x00) := by
  obtain ⟨h1, h2, h3⟩ := multi_pass_pattern_cycle_and_final_zero 2 (by decide)
  refine ⟨h1, ?_, h3⟩
  have h := h2 2 (by decide) (by decide)
  simpa [wipePatterns] using h

/-- C6: on a device without hardware secure-erase support, the
Advanced-mode strategy degrades to software passes instead of failing: an
HDD gets the 7-pass overwrite and an SSD gets TRIM (when supported)
followed by the 3-pass overwrite.  Every device primitive involved
unconditionally succeeds in the source, so the degraded path is the
complete result and contributes no error. -/
theorem advanced_mode_software_fallback (device : StorageDevice)
    (h : device.supports_secure_erase = false) :
    wipe_hdd device EraseMode.Advanced = multi_pass_wipe 7
    ∧ wipe_ssd device EraseMode.Advanced
        = (if device.supports_trim then [WipeAction.trim] else []) ++ multi_pass_wipe 3 := by
  constructor
  · simp [wipe_hdd, h]
  · simp [wipe_ssd, h]

/-- C6 witness: the fallback equalities instantiated on a concrete device
without secure-erase support. -/
theorem advanced_mode_software_fallback_witness :
    wipe_hdd sampleDevice EraseMode.Advanced = multi_pass_wipe 7
    ∧ wipe_ssd sampleDevice EraseMode.Advanced
        = (if sampleDevice.supports_trim then [WipeAction.trim] else [])
            ++ multi_pass_wipe 3 :=
  advanced_mode_software_fallback sampleDevice rfl

/-- C7: post-wipe verification passes exactly when the sampled ratio is at
least 0.95, with the boundary inclusive: the threshold decision at ratio
exactly 95/100 is true and at ratio 9499/10000 is false. -/
theorem verification_threshold_inclusive_boundary :
    (∀ sector_wiped : ℕ → Bool,
        ((verify_device_wipe sector_wiped).1 = true
          ↔ (95 : ℚ) / 100 ≤ (verify_device_wipe sector_wiped).2))
    ∧ verification_threshold 95 100 = true
    ∧ verification_threshold 9499 10000 = false := by
  refine ⟨fun f => ?_, ?_, ?_⟩
  · simp [verify_device_wipe, verification_threshold]
  · simp only [verification_threshold, decide_eq_true_eq]
    norm_num
  · simp only [verification_threshold]
    rw [decide_eq_false_iff_not]
    norm_num

/-- C7 witness: the threshold equivalence instantiated on a concrete
sampling outcome, together with the two boundary evaluations. -/
theorem verification_threshold_inclusive_boundary_witness :
    ((verify_device_wipe (fun i => decide (i < 95))).1 = true
      ↔ (95 : ℚ) / 100 ≤ (verify_device_wipe (fun i => decide (i < 95))).2)
    ∧ verification_threshold 95 100 = true
    ∧ verification_threshold 9499 10000 = false :=
  ⟨verification_threshold_inclusive_boundary.1 (fun i => decide (i < 95)),
   verification_threshold_inclusive_boundary.2.1,
   verification_threshold_inclusive_boundary.2.2⟩

/-- C8: when the wipe procedure fails on exactly k < max_retries attempts
and then succeeds, and post-wipe verification succeeds, the call returns a
successful WipeResult whose errors list has exactly k entries. -/
theorem retry_success_records_k_errors (engine : AdvancedWipeEngine)
    (device : StorageDevice) (mode : EraseMode)
    (attempt_outcome : ℕ → Except String Unit) (k : ℕ)
    (start_time end_time : ℕ)
    (hk : k < engine.max_retries)
    (hfail : ∀ n, 1 ≤ n → n ≤ k → ∃ e, attempt_outcome n = Except.error e)
    (hok : attempt_outcome (k + 1) = Except.ok ())
    (hverify : engine.verify_after_wipe = true)
    (hte : start_time ≤ end_time) :
    ∃ result,
      secure_erase_with_verification engine device mode attempt_outcome
          (Except.ok true) start_time end_time = Except.ok result
      ∧ result.errors.length = k ∧ result.verification_passed = true := by
  obtain ⟨msgs, hrun, hlen⟩ := run_wipe_attempts_success attempt_outcome k
    engine.max_retries 1 [] hk
    (fun i hi => by
      obtain ⟨e, he⟩ := hfail (1 + i) (by omega) (by omega)
      exact ⟨e, he⟩)
    (by rwa [show 1 + k = k + 1 from by omega])
  have hnl : ¬ (end_time < start_time) := by omega
  refine ⟨{ device := device, mode := mode, start_time := start_time, end_time := end_time,
            duration_seconds := end_time - start_time, bytes_written := device.size,
            verification_passed := true, errors := msgs }, ?_, by simpa using hlen, rfl⟩
  simp [secure_erase_with_verification, hrun, hverify, hnl]

/-- C8 witness: one failed attempt followed by success, with verification
passing, yields a successful result with exactly one recorded error. -/
theorem retry_success_records_k_errors_witness :
    ∃ result,
      secure_erase_with_verification AdvancedWipeEngine.new sampleDevice EraseMode.Full
          c8Attempts (Except.ok true) 0 5 = Except.ok result
      ∧ result.errors.length = 1 ∧ result.verification_passed = true :=
  retry_success_records_k_errors AdvancedWipeEngine.new sampleDevice EraseMode.Full
    c8Attempts 1 0 5 (by decide)
    (fun n h1 h2 => ⟨"device busy", by
      have hn1 : n = 1 := by omega
      subst hn1
      rfl⟩)
    rfl rfl (by omega)

set_option maxRecDepth 8000 in
/-- C9 counterexample: for the concrete basic issuance c9Issuance, the
byte sequence handed to signing (and hashing) is not the persisted
certificate serialized with only verification.hash and signature cleared:
the issuer signs with public_key_fingerprint still empty and afterwards
stores "ED25519" in the persisted certificate. -/
theorem basic_signed_bytes_ne_cleared_persisted :
    c9Issuance.sign_input ≠ basic_data_to_verify c9Issuance.certificate := by
  decide

/-- C9 amended: in both schema versions the issuer passes the same byte
sequence to the SHA-256 hash and to the signing function (never the hash
value), and that sequence serializes the pre-signing structure: the
certificate with verification.hash and signature empty and, in addition,
public_key_fingerprint empty (basic schema) or metadata.qr_code_data null
(enhanced schema) — fields the issuer changes after signing. -/
theorem issuance_hashes_and_signs_presigning_bytes
    (hash_fn sign_fn : String → String) (wr : WipeResult) (ts : ℕ)
    (gen : EnhancedCertificateGenerator) (rv : ℕ) (os_name arch_name : String) :
    (generate_certificate hash_fn sign_fn wr ts).hash_input
      = (generate_certificate hash_fn sign_fn wr ts).sign_input
    ∧ (generate_certificate hash_fn sign_fn wr ts).sign_input
      = WipeCertificate.toJson
          { (generate_certificate hash_fn sign_fn wr ts).certificate with
            verification :=
              { hash := "", algorithm := "SHA-256", public_key_fingerprint := "" }
            signature := "" }
    ∧ (generate_enhanced_certificate gen hash_fn sign_fn wr ts rv os_name arch_name).hash_input
      = (generate_enhanced_certificate gen hash_fn sign_fn wr ts rv os_name arch_name).sign_input
    ∧ (generate_enhanced_certificate gen hash_fn sign_fn wr ts rv os_name arch_name).sign_input
      = EnhancedWipeCertificate.toJson
          { (generate_enhanced_certificate gen hash_fn sign_fn wr ts rv os_name
              arch_name).certificate with
            verification :=
              { (generate_enhanced_certificate gen hash_fn sign_fn wr ts rv os_name
                  arch_name).certificate.verification with hash := "" }
            signature := ""
            metadata :=
              { (generate_enhanced_certificate gen hash_fn sign_fn wr ts rv os_name
                  arch_name).certificate.metadata with qr_code_data := none } } :=
  ⟨rfl, rfl, rfl, rfl⟩

/-- C9 witness: the canonical-bytes identities instantiated on a concrete
issuance. -/
theorem issuance_hashes_and_signs_presigning_bytes_witness :
    (generate_certificate (fun _ => "deadbeef") (fun _ => "cafe")
        sampleWipeResult 1200).hash_input
      = (generate_certificate (fun _ => "deadbeef") (fun _ => "cafe")
          sampleWipeResult 1200).sign_input
    ∧ (generate_enhanced_certificate sampleGenerator (fun _ => "deadbeef")
        (fun _ => "cafe") c1WipeResult 1200 7 "linux" "x86_64").hash_input
      = (generate_enhanced_certificate sampleGenerator (fun _ => "deadbeef")
          (fun _ => "cafe") c1WipeResult 1200 7 "linux" "x86_64").sign_input :=
  ⟨(issuance_hashes_and_signs_presigning_bytes (fun _ => "deadbeef") (fun _ => "cafe")
      sampleWipeResult 1200 sampleGenerator 7 "linux" "x86_64").1,
   (issuance_hashes_and_signs_presigning_bytes (fun _ => "deadbeef") (fun _ => "cafe")
      c1WipeResult 1200 sampleGenerator 7 "linux" "x86_64").2.2.1⟩

/-- C10: every hidden-area entry of an issued enhanced certificate's
device info has wiped = true, unconditionally: the issuer marks all hidden
areas of the device snapshot as wiped regardless of the wipe mode or
outcome. -/
theorem enhanced_certificate_hidden_areas_all_wiped
    (gen : EnhancedCertificateGenerator) (hash_fn sign_fn : String → String)
    (wr : WipeResult) (ts rv : ℕ) (os_name arch_name : String)
    (info : HiddenAreaInfo)
    (hmem : info ∈ (generate_enhanced_certificate gen hash_fn sign_fn wr ts rv
        os_name arch_name).certificate.device_info.hidden_areas) :
    info.wiped = true := by
  simp [generate_enhanced_certificate, convert_hidden_areas, List.mem_map] at hmem
  obtain ⟨area, _, rfl⟩ := hmem
  rfl

/-- C10 witness: issuing a certificate for a device with one HPA hidden
area yields that area marked wiped. -/
theorem enhanced_certificate_hidden_areas_all_wiped_witness :
    ({ area_type := "HPA", start_lba := 0, size := 2048,
       description := "host protected area", wiped := true } : HiddenAreaInfo).wiped
      = true :=
  enhanced_certificate_hidden_areas_all_wiped sampleGenerator (fun _ => "h")
    (fun _ => "s") hpaWipeResult 0 0 "linux" "x86_64" _ (by decide)

end Oblivion
